import Mathlib

/-!
Verification development for the subscriptions service.

The Go sources are embedded shallowly:

* `MonthYear` models a `time.Time` holding a calendar month (day always
  normalized to the 1st), ordered by `MonthYear.idx`.
* `parseMonthYear` / `formatMonthYear` model `time.Parse("01-2006", s)` and
  `t.Format("01-2006")` from `internal/model` (validator.go, mapping code):
  the layout demands exactly two digits of month (range-checked to 01..12 by
  the parser), a literal dash, and exactly four digits of year, with no
  trailing text; formatting zero-pads month to 2 and year to 4 digits.
* The repository layer (`internal/repository/repository.go`) is modelled as
  pure state passing over `RepoState`, whose `calls` field counts storage
  invocations; the SQL statements are translated clause by clause.
* The service layer (`internal/service`) and handler query normalization
  (`internal/handler/handler.go`) are translated control-flow by control-flow.
-/

/-- Calendar month as stored in the domain model (`StartDate`/`EndDate` with
day normalized to the 1st). -/
structure MonthYear where
  month : Nat
  year : Nat
  deriving DecidableEq, Repr

/-- Linearization of a calendar month used for date comparison; for the
month range 1..12 it agrees with the lexicographic (year, month) order that
Go `time.Time.Before`/SQL date comparison implement at month granularity. -/
def MonthYear.idx (d : MonthYear) : Nat := 12 * d.year + d.month

/-- Numeric value of a decimal digit character. -/
def digitVal (c : Char) : Nat := c.toNat - 48

/-- Decimal digit character for a value below 10. -/
def digitChar (n : Nat) : Char := Char.ofNat (n + 48)

/-- Model of Go `time.Parse("01-2006", s)` restricted to the month/year
fields it yields: the layout consumes exactly two digits of month, the
literal dash, and exactly four digits of year; any leftover input is an
error, and a parsed month outside 1..12 is rejected by the range check. -/
def parseMonthYear (s : String) : Option MonthYear :=
  match s.data with
  | [m1, m2, d, y1, y2, y3, y4] =>
    if m1.isDigit && m2.isDigit && (d == '-') &&
        y1.isDigit && y2.isDigit && y3.isDigit && y4.isDigit then
      let m := 10 * digitVal m1 + digitVal m2
      if 1 ≤ m ∧ m ≤ 12 then
        some ⟨m, 1000 * digitVal y1 + 100 * digitVal y2 + 10 * digitVal y3 + digitVal y4⟩
      else none
    else none
  | _ => none

/-- Model of Go `t.Format("01-2006")` on a calendar month: month zero-padded
to two digits, a dash, year zero-padded to four digits (faithful on the
months 0..99 and years 0..9999 that parsing can produce). -/
def formatMonthYear (d : MonthYear) : String :=
  String.mk [digitChar (d.month / 10), digitChar (d.month % 10), '-',
             digitChar (d.year / 1000), digitChar (d.year / 100 % 10),
             digitChar (d.year / 10 % 10), digitChar (d.year % 10)]

/-- Stated from the spec, for comparison with `parseMonthYear`: the exact
shape two-digit month 01..12, dash, four-digit year. -/
def specShapeMMYYYY (s : String) : Bool :=
  match s.data with
  | [m1, m2, d, y1, y2, y3, y4] =>
    m1.isDigit && m2.isDigit && (d == '-') &&
      y1.isDigit && y2.isDigit && y3.isDigit && y4.isDigit &&
      decide (1 ≤ 10 * digitVal m1 + digitVal m2 ∧ 10 * digitVal m1 + digitVal m2 ≤ 12)
  | _ => false

/-- Domain model `model.Subscription` (model.go). UUIDs are modelled as
opaque naturals, timestamps (`CreatedAt`/`UpdatedAt`) as naturals, and the
month-granularity dates as `MonthYear`. -/
structure Subscription where
  id : Nat
  userID : Nat
  serviceName : String
  price : Int
  startDate : MonthYear
  endDate : Option MonthYear
  createdAt : Nat
  updatedAt : Nat
  deriving DecidableEq, Repr

/-- Filter clauses `($1::uuid IS NULL OR user_id = $1) AND ($2::text IS NULL
OR service_name = $2)` shared by the List and AggregateCost SQL
(repository.go). -/
def matchesFilter (userID : Option Nat) (serviceName : Option String)
    (s : Subscription) : Bool :=
  (match userID with
   | none => true
   | some u => s.userID == u) &&
  (match serviceName with
   | none => true
   | some n => s.serviceName == n)

/-- Overlap clauses `start_date <= $4 AND (end_date IS NULL OR end_date >= $3)`
of the AggregateCost SQL (repository.go), with `$3 = fromM`, `$4 = toM`. -/
def overlaps (fromM toM : MonthYear) (s : Subscription) : Bool :=
  decide (s.startDate.idx ≤ toM.idx) &&
  (match s.endDate with
   | none => true
   | some e => decide (fromM.idx ≤ e.idx))

/-- Model of `subscriptionRepo.AggregateCost` (repository.go:231-267): the
SQL `SELECT COALESCE(SUM(price), 0) ... WHERE <filter> AND <overlap>` run
over the stored rows, accumulating the sum as the query engine does. -/
def aggregateCost (store : List Subscription) (userID : Option Nat)
    (serviceName : Option String) (fromM toM : MonthYear) : Int :=
  store.foldl
    (fun acc s =>
      if matchesFilter userID serviceName s && overlaps fromM toM s then
        acc + s.price
      else acc)
    0

/-- Repository-facing state: the stored rows plus a counter of storage
invocations, used to express that rejected requests never reach storage. -/
structure RepoState where
  store : List Subscription
  calls : Nat
  deriving DecidableEq, Repr

/-- Error message of `repository.ErrNotFound`. -/
def errNotFound : String := "subscription not found"

/-- Error message of the service-layer negative-price rejection. -/
def errNegativePrice : String := "price must be >= 0"

/-- Error message of the service-layer date-range rejection. -/
def errEndBeforeStart : String := "end_date cannot be before start_date"

/-- Error message of `service.ErrInvalidPeriod`. -/
def errInvalidPeriod : String := "invalid aggregation period"

/-- Error message the handlers write for a malformed user_id query value. -/
def errInvalidUserId : String := "invalid user_id"

/-- Model of `subscriptionRepo.Create` (repository.go:52-78): the INSERT
assigns `id`, `created_at`, `updated_at` server-side (RETURNING clause) and
stores the remaining fields from the given subscription. -/
def repoCreate (st : RepoState) (sub : Subscription) (newId now : Nat) :
    RepoState :=
  { store := st.store ++
      [{ sub with id := newId, createdAt := now, updatedAt := now }],
    calls := st.calls + 1 }

/-- Row image of the UPDATE statement in `subscriptionRepo.Update`
(repository.go:119-127): SET service_name, price, start_date, end_date,
updated_at = now() on the matched row. -/
def applyUpdate (r : Subscription) (sub : Subscription) (now : Nat) :
    Subscription :=
  { r with serviceName := sub.serviceName, price := sub.price,
           startDate := sub.startDate, endDate := sub.endDate,
           updatedAt := now }

/-- Model of `subscriptionRepo.Update` (repository.go:116-150): UPDATE rows
WHERE `id = sub.id`; when `RowsAffected() == 0` return `ErrNotFound`. -/
def repoUpdate (st : RepoState) (sub : Subscription) (now : Nat) :
    Except String Unit × RepoState :=
  if st.store.any (fun r => r.id == sub.id) then
    (Except.ok (),
     { store := st.store.map
         (fun r => if r.id == sub.id then applyUpdate r sub now else r),
       calls := st.calls + 1 })
  else
    (Except.error errNotFound, { st with calls := st.calls + 1 })

/-- Model of `subscriptionRepo.Delete` (repository.go:153-173): DELETE rows
WHERE `id = id`; when `RowsAffected() == 0` return `ErrNotFound`. -/
def repoDelete (st : RepoState) (id : Nat) :
    Except String Unit × RepoState :=
  if st.store.any (fun r => r.id == id) then
    (Except.ok (),
     { store := st.store.filter (fun r => !(r.id == id)),
       calls := st.calls + 1 })
  else
    (Except.error errNotFound, { st with calls := st.calls + 1 })

/-- Model of `subscriptionRepo.GetByID` (repository.go:81-113): SELECT the
row WHERE `id = id`; no row surfaces as `ErrNotFound`. -/
def repoGetByID (st : RepoState) (id : Nat) :
    Except String Subscription × RepoState :=
  match st.store.find? (fun r => r.id == id) with
  | some sub => (Except.ok sub, { st with calls := st.calls + 1 })
  | none => (Except.error errNotFound, { st with calls := st.calls + 1 })

/-- Go condition `sub.EndDate != nil && sub.EndDate.Before(sub.StartDate)`
used by the service-layer gate (service source, Create and Update). -/
def endBeforeStart (sub : Subscription) : Bool :=
  match sub.endDate with
  | none => false
  | some e => decide (e.idx < sub.startDate.idx)

/-- Model of `subscriptionService.Create` (service source, lines 49-70):
reject negative price, then reject end date strictly before start date, and
only then invoke `repo.Create`. -/
def serviceCreate (st : RepoState) (sub : Subscription) (newId now : Nat) :
    Except String Unit × RepoState :=
  if sub.price < 0 then (Except.error errNegativePrice, st)
  else if endBeforeStart sub then (Except.error errEndBeforeStart, st)
  else (Except.ok (), repoCreate st sub newId now)

/-- Model of `subscriptionService.Update` (service source, lines 84-103):
the same two checks as Create, then delegate to `repo.Update`. -/
def serviceUpdate (st : RepoState) (sub : Subscription) (now : Nat) :
    Except String Unit × RepoState :=
  if sub.price < 0 then (Except.error errNegativePrice, st)
  else if endBeforeStart sub then (Except.error errEndBeforeStart, st)
  else repoUpdate st sub now

/-- Model of `subscriptionService.Aggregate` (service source, lines
138-161): `from.After(to)` returns `(0, ErrInvalidPeriod)` without touching
storage; otherwise the call is delegated to `repo.AggregateCost`. The first
component mirrors Go's `(int, error)` pair. -/
def serviceAggregate (st : RepoState) (userID : Option Nat)
    (serviceName : Option String) (fromM toM : MonthYear) :
    (Int × Option String) × RepoState :=
  if toM.idx < fromM.idx then ((0, some errInvalidPeriod), st)
  else ((aggregateCost st.store userID serviceName fromM toM, none),
        { st with calls := st.calls + 1 })

/-- Arguments of a `repo.List` invocation. -/
structure ListCall where
  userID : Option Nat
  serviceName : Option String
  limit : Int
  offset : Int
  deriving DecidableEq, Repr

/-- Model of the parameter normalization in `subscriptionService.List`
(service source, lines 118-136): `limit <= 0` is replaced by 20 and
`offset < 0` by 0 before `repo.List` is invoked with them. -/
def serviceListCall (userID : Option Nat) (serviceName : Option String)
    (limit offset : Int) : ListCall :=
  { userID := userID, serviceName := serviceName,
    limit := if limit ≤ 0 then 20 else limit,
    offset := if offset < 0 then 0 else offset }

/-- Wire DTO `model.CreateSubscriptionRequest` (model.go:23-29), used for
both create and update bodies. -/
structure CreateSubscriptionRequest where
  serviceName : String
  price : Int
  userID : Nat
  startDate : String
  endDate : Option String
  deriving DecidableEq, Repr

/-- Model of `model.Validate.Struct` on a `CreateSubscriptionRequest` per
its tags (model.go:23-29) under go-playground/validator semantics:
`required` fails on the type's zero value (empty string, integer 0, nil
UUID — modelled as 0), `min=2` on a string is rune count at least 2,
`min=0` on an int is value at least 0, the custom `mmYYYY` rule is success
of `time.Parse("01-2006", value)` (validator.go:20-25), and `omitempty`
skips a nil optional field. -/
def validateCreateRequest (req : CreateSubscriptionRequest) : Bool :=
  (!(req.serviceName == "") && decide (2 ≤ req.serviceName.length)) &&
  (!(req.price == 0) && decide (0 ≤ req.price)) &&
  !(req.userID == 0) &&
  (!(req.startDate == "") && (parseMonthYear req.startDate).isSome) &&
  (match req.endDate with
   | none => true
   | some e => (parseMonthYear e).isSome)

/-- Wire DTO `model.SubscriptionResponse` (model.go:33-40); `endDate = none`
models the nil `*string` pointer. -/
structure SubscriptionResponse where
  id : Nat
  serviceName : String
  price : Int
  userID : Nat
  startDate : String
  endDate : Option String
  deriving DecidableEq, Repr

/-- Model of `model.ToResponse` (mapping source): copies the identifier and
scalar fields, formats `StartDate` with layout "01-2006", and sets the
`EndDate` pointer only when the domain value is present. -/
def toResponse (sub : Subscription) : SubscriptionResponse :=
  { id := sub.id, serviceName := sub.serviceName, price := sub.price,
    userID := sub.userID, startDate := formatMonthYear sub.startDate,
    endDate := match sub.endDate with
               | none => none
               | some e => some (formatMonthYear e) }

/-- JSON keys emitted for a `SubscriptionResponse` per its struct tags
(model.go:33-40): every field is emitted except `end_date`, which carries
`omitempty` on a `*string` and is therefore omitted entirely (never emitted
as null) when the pointer is nil. -/
def responseJsonKeys (r : SubscriptionResponse) : List String :=
  ["id", "service_name", "price", "user_id", "start_date"] ++
    (match r.endDate with
     | none => []
     | some _ => ["end_date"])

/-- Model of the user_id query-parameter handling shared verbatim by
`SubscriptionHandler.List` (handler.go:139-146) and
`SubscriptionHandler.Summary` (handler.go:198-206): the empty string leaves
the filter absent; a non-empty string is parsed with `uuid.Parse`
(abstracted as `parse`) and rejected when the parse fails. -/
def queryUserIdParam (parse : String → Option Nat) (raw : String) :
    Except String (Option Nat) :=
  if raw == "" then Except.ok none
  else
    match parse raw with
    | some u => Except.ok (some u)
    | none => Except.error errInvalidUserId

/-- Model of the service_name query-parameter handling shared by
`SubscriptionHandler.List` (handler.go:148-150) and
`SubscriptionHandler.Summary` (handler.go:208-211): empty means absent,
anything else is passed through. -/
def queryServiceNameParam (raw : String) : Option String :=
  if raw == "" then none else some raw

/-- Any digit character's code point lies in 48..57. -/
theorem digit_toNat_bounds {c : Char} (h : c.isDigit = true) :
    48 ≤ c.toNat ∧ c.toNat ≤ 57 := by
  revert h
  simp [Char.isDigit, Char.toNat]
  intro h1 h2
  constructor
  · exact h1
  · exact h2

/-- Formatting the value of a digit character gives the character back. -/
theorem digitChar_digitVal {c : Char} (h : c.isDigit = true) :
    digitChar (digitVal c) = c := by
  obtain ⟨h1, h2⟩ := digit_toNat_bounds h
  have hn : digitVal c + 48 = c.toNat := by
    unfold digitVal
    omega
  unfold digitChar
  rw [hn]
  apply Char.ext
  apply UInt32.ext
  have hval : c.toNat < 55296 := by omega
  have hvalid : c.val.toNat < 55296 ∨ 57343 < c.val.toNat ∧ c.val.toNat < 1114112 :=
    Or.inl hval
  simp [Char.ofNat, Char.isValidCharNat, Nat.isValidChar, Char.ofNatAux,
    UInt32.ofNat', Char.toNat]
  rw [dif_pos hvalid]
  rfl

/-- A digit character's value is at most 9. -/
theorem digitVal_le_nine {c : Char} (h : c.isDigit = true) : digitVal c ≤ 9 := by
  obtain ⟨h1, h2⟩ := digit_toNat_bounds h
  unfold digitVal
  omega

/-- Successful month-year parses format back to the original string. -/
theorem parse_format_roundtrip (s : String) (d : MonthYear)
    (h : parseMonthYear s = some d) : formatMonthYear d = s := by
  obtain ⟨l⟩ := s
  rcases l with _ | ⟨m1, _ | ⟨m2, _ | ⟨c3, _ | ⟨y1, _ | ⟨y2, _ | ⟨y3, _ | ⟨y4, _ | ⟨_, _⟩⟩⟩⟩⟩⟩⟩⟩
  · exact Option.noConfusion h
  · exact Option.noConfusion h
  · exact Option.noConfusion h
  · exact Option.noConfusion h
  · exact Option.noConfusion h
  · exact Option.noConfusion h
  · exact Option.noConfusion h
  case cons.cons.cons.cons.cons.cons.cons.cons =>
    exact Option.noConfusion h
  simp [parseMonthYear] at h
  obtain ⟨⟨⟨⟨⟨⟨⟨hd1, hd2⟩, hd3⟩, hd4⟩, hd5⟩, hd6⟩, hd7⟩, hm, hd⟩ := h
  subst hd
  subst hd3
  have b1 := digitVal_le_nine hd1
  have b2 := digitVal_le_nine hd2
  have b4 := digitVal_le_nine hd4
  have b5 := digitVal_le_nine hd5
  have b6 := digitVal_le_nine hd6
  have b7 := digitVal_le_nine hd7
  have e1 : (10 * digitVal m1 + digitVal m2) / 10 = digitVal m1 := by omega
  have e2 : (10 * digitVal m1 + digitVal m2) % 10 = digitVal m2 := by omega
  have e4 : (1000 * digitVal y1 + 100 * digitVal y2 + 10 * digitVal y3 + digitVal y4) / 1000
      = digitVal y1 := by omega
  have e5 : (1000 * digitVal y1 + 100 * digitVal y2 + 10 * digitVal y3 + digitVal y4) / 100 % 10
      = digitVal y2 := by omega
  have e6 : (1000 * digitVal y1 + 100 * digitVal y2 + 10 * digitVal y3 + digitVal y4) / 10 % 10
      = digitVal y3 := by omega
  have e7 : (1000 * digitVal y1 + 100 * digitVal y2 + 10 * digitVal y3 + digitVal y4) % 10
      = digitVal y4 := by omega
  simp only [formatMonthYear, e1, e2, e4, e5, e6, e7,
    digitChar_digitVal hd1, digitChar_digitVal hd2, digitChar_digitVal hd4,
    digitChar_digitVal hd5, digitChar_digitVal hd6, digitChar_digitVal hd7]

/-- Parsing succeeds exactly on strings of the spec's MM-YYYY shape. -/
theorem parse_isSome_eq_shape (s : String) :
    (parseMonthYear s).isSome = specShapeMMYYYY s := by
  obtain ⟨l⟩ := s
  rcases l with _ | ⟨m1, _ | ⟨m2, _ | ⟨c3, _ | ⟨y1, _ | ⟨y2, _ | ⟨y3, _ | ⟨y4, _ | ⟨_, _⟩⟩⟩⟩⟩⟩⟩⟩
  · rfl
  · rfl
  · rfl
  · rfl
  · rfl
  · rfl
  · rfl
  case cons.cons.cons.cons.cons.cons.cons.cons => rfl
  by_cases hc : (m1.isDigit && m2.isDigit && (c3 == '-') &&
      y1.isDigit && y2.isDigit && y3.isDigit && y4.isDigit) = true
  · by_cases hm : 1 ≤ 10 * digitVal m1 + digitVal m2 ∧ 10 * digitVal m1 + digitVal m2 ≤ 12
    · simp [parseMonthYear, specShapeMMYYYY, hm]
      simp only [Bool.and_eq_true, beq_iff_eq] at hc
      obtain ⟨⟨⟨⟨⟨⟨hd1, hd2⟩, hd3⟩, hd4⟩, hd5⟩, hd6⟩, hd7⟩ := hc
      simp [hd1, hd2, hd3, hd4, hd5, hd6, hd7]
    · simp [parseMonthYear, specShapeMMYYYY, hm]
  · simp only [Bool.and_eq_true, beq_iff_eq] at hc
    simp [parseMonthYear, specShapeMMYYYY]
    rw [if_neg hc]
    simp only [Option.isSome_none]
    symm
    rw [Bool.eq_false_iff]
    intro hb
    simp only [Bool.and_eq_true, beq_iff_eq, decide_eq_true_eq] at hb
    exact hc hb.1

/-- The SQL-style conditional sum equals the sum over the filtered rows. -/
theorem foldl_price_sum (g : Subscription → Bool) :
    ∀ (l : List Subscription) (acc : Int),
    l.foldl (fun a s => if g s then a + s.price else a) acc
      = acc + ((l.filter g).map (fun s => s.price)).sum := by
  intro l
  induction l with
  | nil => intro acc; simp
  | cons x xs ih =>
    intro acc
    by_cases hx : g x = true
    · simp only [List.foldl_cons, hx, if_true, List.filter_cons, List.map_cons,
        List.sum_cons, ih]
      ring
    · simp only [List.foldl_cons, hx, if_false, List.filter_cons, ih]
      simp [hx]

/-- Every update attempt costs exactly one storage invocation. -/
theorem repoUpdate_calls (st : RepoState) (sub : Subscription) (now : Nat) :
    (repoUpdate st sub now).2.calls = st.calls + 1 := by
  unfold repoUpdate
  split
  · rfl
  · rfl

/-- C5: every string of the exact shape two-digit month 01-12, dash,
four-digit year parses with `parseMonthYear` and formats back to the
identical string, and every string not of that shape fails to parse:
parse success is exactly the spec shape, and parse-then-format is the
identity on the parsed strings. -/
theorem claim5_month_year_roundtrip :
    (∀ s : String, (parseMonthYear s).isSome = specShapeMMYYYY s) ∧
    (∀ (s : String) (d : MonthYear), parseMonthYear s = some d →
      formatMonthYear d = s) := by
  constructor
  · exact parse_isSome_eq_shape
  · exact parse_format_roundtrip

/-- Witness for C5 at the concrete input "01-2025". -/
theorem claim5_witness :
    parseMonthYear ("01-2025") = some ⟨1, 2025⟩ ∧
    formatMonthYear ⟨1, 2025⟩ = ("01-2025") := by
  refine ⟨by decide, claim5_month_year_roundtrip.2 ("01-2025") ⟨1, 2025⟩ (by decide)⟩

/-- C1: over every set of stored subscriptions, every optional
user_id/service_name filter and every period with from at most to, the
aggregate query returns the sum of price over exactly the rows matching the
filter and overlapping the period (start_date at most to, and end_date
absent or at least from); an empty match set yields 0, not an error. -/
theorem claim1_aggregate_sums_matching
    (store : List Subscription) (userID : Option Nat)
    (serviceName : Option String) (fromM toM : MonthYear)
    (_hft : fromM.idx ≤ toM.idx) :
    aggregateCost store userID serviceName fromM toM
      = ((store.filter (fun s => matchesFilter userID serviceName s &&
          overlaps fromM toM s)).map (fun s => s.price)).sum ∧
    (store.filter (fun s => matchesFilter userID serviceName s &&
        overlaps fromM toM s) = [] →
      aggregateCost store userID serviceName fromM toM = 0) := by
  have h := foldl_price_sum
    (fun s => matchesFilter userID serviceName s && overlaps fromM toM s) store 0
  constructor
  · simpa [aggregateCost] using h
  · intro he
    simp only [aggregateCost]
    rw [h, he]
    simp

/-- Witness for C1 on an empty store and the period 01-2025 to 03-2025. -/
theorem claim1_witness :
    aggregateCost [] none none ⟨1, 2025⟩ ⟨3, 2025⟩ = 0 :=
  (claim1_aggregate_sums_matching [] none none ⟨1, 2025⟩ ⟨3, 2025⟩
    (by decide)).2 (by decide)

/-- C2: the claim says request validation succeeds for price 0 (price at
least 0 being the only price condition); on the code the `required` tag on
the integer `Price` field treats 0 as the missing zero value, so an
otherwise fully valid request with price 0 fails validation while the same
request with price 1 passes — the code contradicts the documented rule that
prices are any integers at least 0, which the `min=0` tag and the
service-layer gate (`price < 0`) both express. -/
theorem claim2_price_zero_fails_validation :
    validateCreateRequest
      { serviceName := ("Netflix"), price := 0, userID := 1,
        startDate := ("01-2025"), endDate := none } = false ∧
    validateCreateRequest
      { serviceName := ("Netflix"), price := 1, userID := 1,
        startDate := ("01-2025"), endDate := none } = true := by
  constructor
  · decide
  · decide

/-- C3: for every subscription given to the service's create or update, a
negative price is rejected with an error, an end date strictly before the
start date is rejected with an error, the persistence call is issued only
when both checks pass (exactly one storage invocation then), the state is
untouched on rejection (storage never invoked), and an end date equal to
the start date passes the gate. -/
theorem claim3_gate_before_persistence (st : RepoState) (sub : Subscription)
    (newId now : Nat) :
    (sub.price < 0 →
      serviceCreate st sub newId now = (Except.error errNegativePrice, st) ∧
      serviceUpdate st sub now = (Except.error errNegativePrice, st)) ∧
    (∀ e : MonthYear, 0 ≤ sub.price → sub.endDate = some e →
      e.idx < sub.startDate.idx →
      serviceCreate st sub newId now = (Except.error errEndBeforeStart, st) ∧
      serviceUpdate st sub now = (Except.error errEndBeforeStart, st)) ∧
    (0 ≤ sub.price → endBeforeStart sub = false →
      serviceCreate st sub newId now = (Except.ok (), repoCreate st sub newId now) ∧
      serviceUpdate st sub now = repoUpdate st sub now ∧
      (serviceCreate st sub newId now).2.calls = st.calls + 1 ∧
      (serviceUpdate st sub now).2.calls = st.calls + 1) ∧
    (sub.endDate = some sub.startDate → endBeforeStart sub = false) := by
  refine ⟨?_, ?_, ?_, ?_⟩
  · intro h
    constructor
    · simp [serviceCreate, h]
    · simp [serviceUpdate, h]
  · intro e hp he hlt
    have hnneg : ¬ sub.price < 0 := by omega
    have hebs : endBeforeStart sub = true := by
      simp [endBeforeStart, he, hlt]
    constructor
    · simp [serviceCreate, hnneg, hebs]
    · simp [serviceUpdate, hnneg, hebs]
  · intro hp hebs
    have hnneg : ¬ sub.price < 0 := by omega
    refine ⟨by simp [serviceCreate, hnneg, hebs], by simp [serviceUpdate, hnneg, hebs],
      ?_, ?_⟩
    · simp [serviceCreate, hnneg, hebs, repoCreate]
    · simp only [serviceUpdate, hnneg, if_false, hebs]
      exact repoUpdate_calls st sub now
  · intro he
    simp [endBeforeStart, he]

/-- Witness for C3: a negative-price subscription is rejected by both create
and update with the state untouched. -/
theorem claim3_witness :
    serviceCreate ⟨[], 0⟩ ⟨0, 1, ("Netflix"), -1, ⟨1, 2025⟩, none, 0, 0⟩ 1 5
        = (Except.error errNegativePrice, ⟨[], 0⟩) ∧
    serviceUpdate ⟨[], 0⟩ ⟨0, 1, ("Netflix"), -1, ⟨1, 2025⟩, none, 0, 0⟩ 5
        = (Except.error errNegativePrice, ⟨[], 0⟩) :=
  (claim3_gate_before_persistence ⟨[], 0⟩
    ⟨0, 1, ("Netflix"), -1, ⟨1, 2025⟩, none, 0, 0⟩ 1 5).1 (by decide)

/-- C4: for every aggregation call whose from is strictly after to, the
service returns total 0 with the invalid-period error and storage is never
invoked (state untouched); for from at most to the check passes and the
call is delegated to storage (one invocation, total from the aggregate
query). -/
theorem claim4_invalid_period_gate (st : RepoState) (userID : Option Nat)
    (serviceName : Option String) (fromM toM : MonthYear) :
    (toM.idx < fromM.idx →
      serviceAggregate st userID serviceName fromM toM
        = ((0, some errInvalidPeriod), st)) ∧
    (fromM.idx ≤ toM.idx →
      serviceAggregate st userID serviceName fromM toM
        = ((aggregateCost st.store userID serviceName fromM toM, none),
           { st with calls := st.calls + 1 })) := by
  constructor
  · intro h
    simp [serviceAggregate, h]
  · intro h
    unfold serviceAggregate
    rw [if_neg (by omega)]

/-- Witness for C4: the backwards period 03-2025..01-2025 is rejected with
total 0 and untouched state. -/
theorem claim4_witness :
    serviceAggregate ⟨[], 0⟩ none none ⟨3, 2025⟩ ⟨1, 2025⟩
      = ((0, some errInvalidPeriod), ⟨[], 0⟩) :=
  (claim4_invalid_period_gate ⟨[], 0⟩ none none ⟨3, 2025⟩ ⟨1, 2025⟩).1 (by decide)

/-- C6: the service invokes storage with the limit replaced by 20 whenever
the given limit is zero or negative (the handler turns an absent parameter
into 0), with the offset replaced by 0 whenever negative, and otherwise
passes limit and offset through unchanged with no upper bound on the limit;
the filter arguments pass through untouched. -/
theorem claim6_list_defaults (userID : Option Nat) (serviceName : Option String)
    (limit offset : Int) :
    (limit ≤ 0 → (serviceListCall userID serviceName limit offset).limit = 20) ∧
    (0 < limit → (serviceListCall userID serviceName limit offset).limit = limit) ∧
    (offset < 0 → (serviceListCall userID serviceName limit offset).offset = 0) ∧
    (0 ≤ offset → (serviceListCall userID serviceName limit offset).offset = offset) ∧
    (serviceListCall userID serviceName limit offset).userID = userID ∧
    (serviceListCall userID serviceName limit offset).serviceName = serviceName := by
  refine ⟨?_, ?_, ?_, ?_, rfl, rfl⟩
  · intro h
    simp [serviceListCall, h]
  · intro h
    have : ¬ limit ≤ 0 := by omega
    simp [serviceListCall, this]
  · intro h
    simp [serviceListCall, h]
  · intro h
    have : ¬ offset < 0 := by omega
    simp [serviceListCall, this]

/-- Witness for C6: the spec's test vector limit 0, offset -1 reaches
storage as limit 20, offset 0. -/
theorem claim6_witness :
    (serviceListCall none none 0 (-1)).limit = 20 ∧
    (serviceListCall none none 0 (-1)).offset = 0 :=
  ⟨(claim6_list_defaults none none 0 (-1)).1 (by decide),
   (claim6_list_defaults none none 0 (-1)).2.2.1 (by decide)⟩

/-- C7: for every id not identifying a stored subscription, get, update and
delete each fail with the not-found error, and the failed update or delete
leaves the stored rows unchanged. -/
theorem claim7_notfound_missing_id (st : RepoState) (id : Nat)
    (hmiss : st.store.find? (fun r => r.id == id) = none) :
    (repoGetByID st id).1 = Except.error errNotFound ∧
    (repoGetByID st id).2.store = st.store ∧
    (∀ (sub : Subscription) (now : Nat), sub.id = id →
      (repoUpdate st sub now).1 = Except.error errNotFound ∧
      (repoUpdate st sub now).2.store = st.store) ∧
    (repoDelete st id).1 = Except.error errNotFound ∧
    (repoDelete st id).2.store = st.store := by
  have hany : st.store.any (fun r => r.id == id) = false := by
    rw [List.any_eq_false]
    intro r hr
    have hn := List.find?_eq_none.mp hmiss r hr
    simpa using hn
  refine ⟨?_, ?_, ?_, ?_, ?_⟩
  · simp [repoGetByID, hmiss]
  · simp [repoGetByID, hmiss]
  · intro sub now hid
    have hany2 : st.store.any (fun r => r.id == sub.id) = false := by
      rw [hid]
      exact hany
    constructor
    · simp [repoUpdate, hany2]
    · simp [repoUpdate, hany2]
  · simp [repoDelete, hany]
  · simp [repoDelete, hany]

/-- Witness for C7 on the empty store and id 7. -/
theorem claim7_witness :
    (repoGetByID ⟨[], 0⟩ 7).1 = Except.error errNotFound ∧
    (repoUpdate ⟨[], 0⟩ ⟨7, 1, ("Netflix"), 10, ⟨1, 2025⟩, none, 0, 0⟩ 5).1
      = Except.error errNotFound ∧
    (repoDelete ⟨[], 0⟩ 7).1 = Except.error errNotFound := by
  refine ⟨(claim7_notfound_missing_id ⟨[], 0⟩ 7 (by decide)).1,
    ((claim7_notfound_missing_id ⟨[], 0⟩ 7 (by decide)).2.2.1
      ⟨7, 1, ("Netflix"), 10, ⟨1, 2025⟩, none, 0, 0⟩ 5 rfl).1,
    (claim7_notfound_missing_id ⟨[], 0⟩ 7 (by decide)).2.2.2.1⟩

/-- C8: for every subscription, the response DTO carries the start date
formatted as an MM-YYYY string, carries an end date string exactly when the
domain end date is present, and the emitted JSON keys include end_date
exactly in that case (the field is omitted entirely, never emitted as
null, when absent). -/
theorem claim8_response_shape (sub : Subscription) :
    (toResponse sub).startDate = formatMonthYear sub.startDate ∧
    (toResponse sub).endDate = Option.map formatMonthYear sub.endDate ∧
    ((responseJsonKeys (toResponse sub)).contains ("end_date"))
      = sub.endDate.isSome := by
  cases h : sub.endDate with
  | none =>
    refine ⟨rfl, by simp [toResponse, h], ?_⟩
    simp only [toResponse, h, responseJsonKeys, Option.isSome_none]
    decide
  | some e =>
    refine ⟨rfl, by simp [toResponse, h], ?_⟩
    simp only [toResponse, h, responseJsonKeys, Option.isSome_some]
    decide

/-- C9: for every stored subscription and every successful update targeting
its id, only service_name, price, start_date, end_date and updated_at of
the stored record may change; id, user_id and created_at are unchanged, and
user_id is not written even when the update payload carries a different
user_id, while rows with other ids are untouched. -/
theorem claim9_update_frame (st : RepoState) (sub : Subscription) (now : Nat)
    (hok : (repoUpdate st sub now).1 = Except.ok ()) :
    List.Forall₂
      (fun r r2 => r2.id = r.id ∧ r2.userID = r.userID ∧
        r2.createdAt = r.createdAt ∧
        (r.id ≠ sub.id → r2 = r) ∧
        (r.id = sub.id → r2.serviceName = sub.serviceName ∧
          r2.price = sub.price ∧ r2.startDate = sub.startDate ∧
          r2.endDate = sub.endDate ∧ r2.updatedAt = now))
      st.store (repoUpdate st sub now).2.store := by
  by_cases hany : st.store.any (fun r => r.id == sub.id) = true
  · simp only [repoUpdate, hany, if_true]
    rw [List.forall₂_map_right_iff]
    rw [List.forall₂_same]
    intro r _
    by_cases hid : r.id = sub.id
    · simp [hid, applyUpdate]
    · simp [hid]
  · simp [repoUpdate, hany] at hok

/-- Witness for C9: updating the single stored row (id 1, user 2) with a
payload carrying id 1 but user 99 keeps id, user_id and created_at and
rewrites only the mutable fields. -/
theorem claim9_witness :
    List.Forall₂
      (fun r r2 => r2.id = r.id ∧ r2.userID = r.userID ∧
        r2.createdAt = r.createdAt ∧
        (r.id ≠ 1 → r2 = r) ∧
        (r.id = 1 → r2.serviceName = ("New") ∧ r2.price = 7 ∧
          r2.startDate = ⟨2, 2024⟩ ∧ r2.endDate = some ⟨3, 2024⟩ ∧
          r2.updatedAt = 5))
      [⟨1, 2, ("Old"), 5, ⟨1, 2024⟩, none, 3, 4⟩]
      (repoUpdate ⟨[⟨1, 2, ("Old"), 5, ⟨1, 2024⟩, none, 3, 4⟩], 0⟩
        ⟨1, 99, ("New"), 7, ⟨2, 2024⟩, some ⟨3, 2024⟩, 8, 9⟩ 5).2.store :=
  claim9_update_frame ⟨[⟨1, 2, ("Old"), 5, ⟨1, 2024⟩, none, 3, 4⟩], 0⟩
    ⟨1, 99, ("New"), 7, ⟨2, 2024⟩, some ⟨3, 2024⟩, 8, 9⟩ 5 rfl

/-- C10: for both the list and the summary handlers, an empty user_id or
service_name query parameter is treated exactly as absent (the filter
dimension is none, which matches every record, and no invalid-identifier
rejection occurs), and the user_id parameter is rejected exactly when it is
non-empty and fails to parse as an identifier. -/
theorem claim10_empty_query_params (parse : String → Option Nat)
    (raw : String) :
    (raw = ("") → queryUserIdParam parse raw = Except.ok none ∧
      queryServiceNameParam raw = none ∧
      (∀ s : Subscription, matchesFilter none none s = true)) ∧
    ((∃ em, queryUserIdParam parse raw = Except.error em) ↔
      raw ≠ ("") ∧ parse raw = none) := by
  constructor
  · intro h
    subst h
    exact ⟨rfl, rfl, fun s => rfl⟩
  · by_cases hr : raw = ("")
    · subst hr
      simp [queryUserIdParam]
    · cases hp : parse raw with
      | some u => simp [queryUserIdParam, hr, hp]
      | none => simp [queryUserIdParam, hr, hp]

/-- Witness for C10: the empty parameter strings yield absent filters. -/
theorem claim10_witness :
    queryUserIdParam (fun _ => none) ("") = Except.ok none ∧
    queryServiceNameParam ("") = none :=
  ⟨((claim10_empty_query_params (fun _ => none) ("")).1 rfl).1,
   ((claim10_empty_query_params (fun _ => none) ("")).1 rfl).2.1⟩
